import Mathlib

/-!
Verification development for the stimulusgen repository (a FastAPI service that
authors narrated audio stimuli).  The relevant Python functions are shallowly
embedded as Lean definitions: Python floats are modelled as exact rationals,
SQLite rows as records of optional fields, filesystem and network effects as
explicit environment records.  Each embedded definition is annotated with the
source location it translates.
-/

namespace StimulusGen

/-- Semantics of the Python builtin int() applied to a real number: truncation
toward zero. -/
def pyInt (q : Rat) : Int :=
  if 0 ≤ q then Int.floor q else Int.ceil q

theorem pyInt_of_nonneg (q : Rat) (h : 0 ≤ q) : pyInt q = Int.floor q := by
  simp [pyInt, h]

theorem pyInt_mono_of_nonneg (a b : Rat) (ha : 0 ≤ a) (hab : a ≤ b) :
    pyInt a ≤ pyInt b := by
  rw [pyInt_of_nonneg a ha, pyInt_of_nonneg b (le_trans ha hab)]
  exact Int.floor_le_floor hab

/-! ## app/services/prompt.py -/

/-- prompt.py line 716. -/
def DEFAULT_TTS_WPM : Int := 102

/-- prompt.py line 720. -/
def DEFAULT_SAFETY_FACTOR : Rat := 1

/-- prompt.py lines 834-857, calculate_target_words. -/
def calculate_target_words (duration_ms : Int) (words_per_minute : Int)
    (safety_factor : Rat) : Int :=
  let duration_seconds : Rat := (duration_ms : Rat) / 1000
  let duration_minutes : Rat := duration_seconds / 60
  let raw_words : Rat := duration_minutes * (words_per_minute : Rat)
  let target_words : Int := pyInt (raw_words * safety_factor)
  max 10 target_words

/-- prompt.py lines 860-922, calculate_target_words_adjusted.  The crossfade
parameter is accepted and deliberately ignored by the source (it is handled by
the audio mixer, not the word budget). -/
def calculate_target_words_adjusted (duration_ms : Int) (voice_speed : Rat)
    (speech_entry_ms : Int) (crossfade_ms : Int) (base_wpm : Int)
    (safety_factor : Rat) : Int :=
  let clamped_speed : Rat := max (1/2) (min 2 voice_speed)
  let effective_duration_ms : Int := max 0 (duration_ms - speech_entry_ms)
  let effective_minutes : Rat := (effective_duration_ms : Rat) / 60000
  let adjusted_wpm : Rat := (base_wpm : Rat) * clamped_speed
  let raw_words : Rat := effective_minutes * adjusted_wpm
  let target_words : Int := pyInt (raw_words * safety_factor)
  max 10 target_words

/-! ## app/models/schemas.py

The pydantic parameter groups.  Floats are modelled as rationals. -/

/-- schemas.py lines 6-10. -/
structure MusicParams where
  track : String
  volume_db : Rat
  speech_entry_ms : Int
  crossfade_ms : Int
deriving Repr, DecidableEq

/-- schemas.py lines 13-21. -/
structure VoiceParams where
  model : String
  voice_id : String
  voice_name : String
  stability : Rat
  similarity_boost : Rat
  style_exaggeration : Rat
  speaker_boost : Bool
  speed : Rat
deriving Repr, DecidableEq

/-- schemas.py lines 24-30. -/
structure TextParams where
  source : String
  llm_model : String
  llm_temperature : Rat
  llm_prompt : String
  speech_text : String
  target_words : Option Int
deriving Repr, DecidableEq

/-- schemas.py lines 33-41. -/
structure MixParams where
  reverb_mix : Rat
  reverb_decay : Rat
  compression_ratio : Rat
  deesser_threshold : Rat
  eq_low_cut : Int
  eq_high_cut : Int
  pitch_shift : Int
  normalization_lufs : Rat
deriving Repr, DecidableEq

/-- schemas.py lines 44-46. -/
structure ProsodyParams where
  reference : String
  intensity : Rat
deriving Repr, DecidableEq

/-- Field defaults of MusicParams as declared in schemas.py. -/
def defaultMusicParams : MusicParams :=
  { track := "", volume_db := -6, speech_entry_ms := 0, crossfade_ms := 2000 }

/-- Field defaults of VoiceParams as declared in schemas.py. -/
def defaultVoiceParams : VoiceParams :=
  { model := "eleven_multilingual_v2", voice_id := "", voice_name := ""
    stability := 1/2, similarity_boost := 3/4, style_exaggeration := 0
    speaker_boost := true, speed := 1 }

/-- Field defaults of TextParams as declared in schemas.py. -/
def defaultTextParams : TextParams :=
  { source := "manual", llm_model := "", llm_temperature := 7/10
    llm_prompt := "", speech_text := "", target_words := none }

/-- Field defaults of MixParams as declared in schemas.py. -/
def defaultMixParams : MixParams :=
  { reverb_mix := 25, reverb_decay := 3/2, compression_ratio := 2
    deesser_threshold := -6, eq_low_cut := 80, eq_high_cut := 12000
    pitch_shift := 0, normalization_lufs := -16 }

/-- Field defaults of ProsodyParams as declared in schemas.py. -/
def defaultProsodyParams : ProsodyParams :=
  { reference := "none", intensity := 0 }

/-- schemas.py lines 49-56, StimulusCreate. -/
structure StimulusCreate where
  id : Option String
  music : MusicParams
  voice : VoiceParams
  text : TextParams
  mix : MixParams
  prosody : ProsodyParams
  notes : String
deriving Repr, DecidableEq

/-- A StimulusCreate with every field left at its schema default. -/
def defaultStimulusCreate : StimulusCreate :=
  { id := none, music := defaultMusicParams, voice := defaultVoiceParams
    text := defaultTextParams, mix := defaultMixParams
    prosody := defaultProsodyParams, notes := "" }

/-- schemas.py lines 59-70, StimulusResponse (created_at omitted: it is a
wall-clock timestamp irrelevant to the claims under study). -/
structure StimulusResponse where
  id : String
  status : String
  audio_url : Option String
  duration_ms : Option Int
  music : MusicParams
  voice : VoiceParams
  text : TextParams
  mix : MixParams
  prosody : ProsodyParams
  notes : String
deriving Repr, DecidableEq

/-- schemas.py lines 155-160, GenerateResponse. -/
structure GenerateResponse where
  stimulus_id : String
  status : String
  audio_url : Option String
  duration_ms : Option Int
  error : Option String
deriving Repr, DecidableEq

/-! ## app/db/database.py and app/db/crud.py

A stored stimuli table row.  SQLite columns are nullable, so every stored
field is an Option; a value inserted as Python None is none.  created_at is
omitted as above. -/

/-- One row of the stimuli table (database.py lines 27-69). -/
structure StimulusRow where
  id : String
  status : Option String
  audio_filename : Option String
  duration_ms : Option Int
  music_track : Option String
  music_volume_db : Option Rat
  music_speech_entry_ms : Option Int
  music_crossfade_ms : Option Int
  voice_model : Option String
  voice_id : Option String
  voice_name : Option String
  voice_stability : Option Rat
  voice_similarity_boost : Option Rat
  voice_style_exaggeration : Option Rat
  voice_speaker_boost : Option Int
  voice_speed : Option Rat
  text_source : Option String
  text_llm_model : Option String
  text_llm_temperature : Option Rat
  text_llm_prompt : Option String
  text_speech_text : Option String
  mix_reverb_mix : Option Rat
  mix_reverb_decay : Option Rat
  mix_compression_ratio : Option Rat
  mix_deesser_threshold : Option Rat
  mix_eq_low_cut : Option Int
  mix_eq_high_cut : Option Int
  mix_pitch_shift : Option Int
  mix_normalization_lufs : Option Rat
  prosody_reference : Option String
  prosody_intensity : Option Rat
  notes : Option String
deriving Repr, DecidableEq

/-- Python expression row[c] or d for a string column: None and the empty
string are falsy. -/
def orStr (v : Option String) (d : String) : String :=
  match v with
  | none => d
  | some s => if s = "" then d else s

/-- Python expression row[c] or d for a REAL column: None and 0 are falsy. -/
def orRat (v : Option Rat) (d : Rat) : Rat :=
  match v with
  | none => d
  | some x => if x = 0 then d else x

/-- Python expression row[c] or d for an INTEGER column: None and 0 are
falsy. -/
def orInt (v : Option Int) (d : Int) : Int :=
  match v with
  | none => d
  | some x => if x = 0 then d else x

/-- Python bool() of a nullable INTEGER column value. -/
def pyBool (v : Option Int) : Bool :=
  match v with
  | none => false
  | some x => x != 0

/-- Truthiness of an optional string (used for if audio_filename checks). -/
def truthyStr (v : Option String) : Bool :=
  match v with
  | none => false
  | some s => s != ""

/-- crud.py lines 13-58, _row_to_stimulus: reconstruct a response record from
a row, backfilling defaults for absent or falsy stored values.  Note that
voice_speaker_boost is passed through bool() rather than backfilled. -/
def row_to_stimulus (row : StimulusRow) : StimulusResponse :=
  { id := row.id
    status := orStr row.status "draft"
    audio_url :=
      match row.audio_filename with
      | none => none
      | some f => if f = "" then none else some ("/outputs/" ++ f)
    duration_ms := row.duration_ms
    music :=
      { track := orStr row.music_track ""
        volume_db := orRat row.music_volume_db (-6)
        speech_entry_ms := orInt row.music_speech_entry_ms 0
        crossfade_ms := orInt row.music_crossfade_ms 2000 }
    voice :=
      { model := orStr row.voice_model "eleven_multilingual_v2"
        voice_id := orStr row.voice_id ""
        voice_name := orStr row.voice_name ""
        stability := orRat row.voice_stability (1/2)
        similarity_boost := orRat row.voice_similarity_boost (3/4)
        style_exaggeration := orRat row.voice_style_exaggeration 0
        speaker_boost := pyBool row.voice_speaker_boost
        speed := orRat row.voice_speed 1 }
    text :=
      { source := orStr row.text_source "manual"
        llm_model := orStr row.text_llm_model ""
        llm_temperature := orRat row.text_llm_temperature (7/10)
        llm_prompt := orStr row.text_llm_prompt ""
        speech_text := orStr row.text_speech_text ""
        target_words := none }
    mix :=
      { reverb_mix := orRat row.mix_reverb_mix 25
        reverb_decay := orRat row.mix_reverb_decay (3/2)
        compression_ratio := orRat row.mix_compression_ratio 2
        deesser_threshold := orRat row.mix_deesser_threshold (-6)
        eq_low_cut := orInt row.mix_eq_low_cut 80
        eq_high_cut := orInt row.mix_eq_high_cut 12000
        pitch_shift := orInt row.mix_pitch_shift 0
        normalization_lufs := orRat row.mix_normalization_lufs (-16) }
    prosody :=
      { reference := orStr row.prosody_reference "none"
        intensity := orRat row.prosody_intensity 0 }
    notes := orStr row.notes "" }

/-- crud.py lines 125-153, create_stimulus: the INSERT writes every embedded
field, forces status to draft, and leaves audio_filename and duration_ms
unset (NULL).  speaker_boost is stored as int(bool). -/
def insert_stimulus_row (stimulus_id : String) (s : StimulusCreate) :
    StimulusRow :=
  { id := stimulus_id
    status := some "draft"
    audio_filename := none
    duration_ms := none
    music_track := some s.music.track
    music_volume_db := some s.music.volume_db
    music_speech_entry_ms := some s.music.speech_entry_ms
    music_crossfade_ms := some s.music.crossfade_ms
    voice_model := some s.voice.model
    voice_id := some s.voice.voice_id
    voice_name := some s.voice.voice_name
    voice_stability := some s.voice.stability
    voice_similarity_boost := some s.voice.similarity_boost
    voice_style_exaggeration := some s.voice.style_exaggeration
    voice_speaker_boost := some (if s.voice.speaker_boost then 1 else 0)
    voice_speed := some s.voice.speed
    text_source := some s.text.source
    text_llm_model := some s.text.llm_model
    text_llm_temperature := some s.text.llm_temperature
    text_llm_prompt := some s.text.llm_prompt
    text_speech_text := some s.text.speech_text
    mix_reverb_mix := some s.mix.reverb_mix
    mix_reverb_decay := some s.mix.reverb_decay
    mix_compression_ratio := some s.mix.compression_ratio
    mix_deesser_threshold := some s.mix.deesser_threshold
    mix_eq_low_cut := some s.mix.eq_low_cut
    mix_eq_high_cut := some s.mix.eq_high_cut
    mix_pitch_shift := some s.mix.pitch_shift
    mix_normalization_lufs := some s.mix.normalization_lufs
    prosody_reference := some s.prosody.reference
    prosody_intensity := some s.prosody.intensity
    notes := some s.notes }

/-- crud.py lines 170-194, update_stimulus: full replace of the editable
fields; status, audio_filename and duration_ms are untouched. -/
def update_stimulus_row (row : StimulusRow) (s : StimulusCreate) :
    StimulusRow :=
  { row with
    music_track := some s.music.track
    music_volume_db := some s.music.volume_db
    music_speech_entry_ms := some s.music.speech_entry_ms
    music_crossfade_ms := some s.music.crossfade_ms
    voice_model := some s.voice.model
    voice_id := some s.voice.voice_id
    voice_name := some s.voice.voice_name
    voice_stability := some s.voice.stability
    voice_similarity_boost := some s.voice.similarity_boost
    voice_style_exaggeration := some s.voice.style_exaggeration
    voice_speaker_boost := some (if s.voice.speaker_boost then 1 else 0)
    voice_speed := some s.voice.speed
    text_source := some s.text.source
    text_llm_model := some s.text.llm_model
    text_llm_temperature := some s.text.llm_temperature
    text_llm_prompt := some s.text.llm_prompt
    text_speech_text := some s.text.speech_text
    mix_reverb_mix := some s.mix.reverb_mix
    mix_reverb_decay := some s.mix.reverb_decay
    mix_compression_ratio := some s.mix.compression_ratio
    mix_deesser_threshold := some s.mix.deesser_threshold
    mix_eq_low_cut := some s.mix.eq_low_cut
    mix_eq_high_cut := some s.mix.eq_high_cut
    mix_pitch_shift := some s.mix.pitch_shift
    mix_normalization_lufs := some s.mix.normalization_lufs
    prosody_reference := some s.prosody.reference
    prosody_intensity := some s.prosody.intensity
    notes := some s.notes }

/-- crud.py lines 197-208, update_stimulus_status: when a truthy
audio_filename is supplied, status, audio_filename and duration_ms are all
written; otherwise only status is written and the previously stored filename
and duration remain in place. -/
def update_stimulus_status (row : StimulusRow) (status : String)
    (audio_filename : Option String) (duration_ms : Option Int) :
    StimulusRow :=
  if truthyStr audio_filename then
    { row with status := some status, audio_filename := audio_filename
               duration_ms := duration_ms }
  else
    { row with status := some status }

/-! ## app/utils/naming.py -/

/-- Regex class w for ASCII characters (the NFKD normalization step of
sanitize_filename is the identity on ASCII input and is not modelled). -/
def isWordChar (c : Char) : Bool :=
  c.isAlphanum || c = '_'

/-- Regex class s for the common ASCII whitespace characters. -/
def isSpaceChar (c : Char) : Bool :=
  c = ' ' || c = '\t' || c = '\n' || c = '\r'

/-- Characters kept by the re.sub removal step of sanitize_filename. -/
def sanitizeKeep (c : Char) : Bool :=
  isWordChar c || isSpaceChar c || c = '-' || c = '.'

/-- Collapse runs of underscores to a single underscore. -/
def collapseUnderscores : List Char → List Char
  | [] => []
  | [c] => [c]
  | c1 :: c2 :: rest =>
    if c1 = '_' && c2 = '_' then collapseUnderscores (c2 :: rest)
    else c1 :: collapseUnderscores (c2 :: rest)

/-- Python str.strip applied with the underscore character. -/
def stripUnderscores (l : List Char) : List Char :=
  ((l.dropWhile (fun c => c = '_')).reverse.dropWhile (fun c => c = '_')).reverse

/-- naming.py lines 6-21, sanitize_filename, for ASCII input: drop characters
outside w, s, hyphen and dot; turn whitespace runs into single underscores
(replacing each whitespace char and then collapsing runs is equivalent to the
two re.sub steps of the source); strip leading/trailing underscores. -/
def sanitize_filename (name : String) : String :=
  let kept := name.data.filter sanitizeKeep
  let mapped := kept.map (fun c => if isSpaceChar c then '_' else c)
  String.mk (stripUnderscores (collapseUnderscores mapped))

/-- naming.py lines 41-44, generate_output_filename with the default mp3
extension. -/
def generate_output_filename (stimulus_id : String) : String :=
  sanitize_filename stimulus_id ++ ".mp3"

/-! ## app/routers/generate.py

The generate endpoint, modelled against an environment that fixes the
outcomes of the external effects (TTS HTTP call, music file existence, mixer
subprocess runs). -/

/-- Outcome of an endpoint handler: an HTTP 200 payload or a raised
HTTPException with a status code and detail string. -/
inductive HttpResult (α : Type) where
  | ok (value : α)
  | error (statusCode : Nat) (detail : String)
deriving Repr, DecidableEq

/-- The externally determined outcomes one run of the generation pipeline can
observe.  synthesize_speech and the two mixer entry points either return
normally or raise; apply_prosody catches its own exceptions and never
raises (prosody.py lines 527-532), so it needs no outcome here. -/
structure PipelineEnv where
  tts_result : Except String Unit
  music_exists : Bool
  mix_audio_result : Except String Int
  mix_voice_only_result : Except String Int
deriving Repr

/-- An exception escaping the pipeline body of generate_stimulus: either a
raised fastapi HTTPException (whose str() is code: detail) or any other
exception with its message. -/
inductive PipelineError where
  | httpExc (statusCode : Nat) (detail : String)
  | exc (message : String)
deriving Repr, DecidableEq

/-- The error string recorded by the broad exception handler
(generate.py line 199: error=str(e)). -/
def pipelineErrorMessage : PipelineError → String
  | .httpExc code detail => toString code ++ ": " ++ detail
  | .exc m => m

/-- generate.py lines 91-173: the three pipeline steps inside the try block.
Step 2 (prosody) cannot raise and does not affect the recorded outcome.
Returns the output filename and duration on success. -/
def run_pipeline (stim : StimulusResponse) (stimulus_id : String)
    (env : PipelineEnv) : Except PipelineError (String × Int) :=
  match env.tts_result with
  | .error m => .error (.exc m)
  | .ok _ =>
    let output_filename := generate_output_filename stimulus_id
    if stim.music.track ≠ "" then
      if ¬ env.music_exists then
        .error (.httpExc 400 ("Music track not found: " ++ stim.music.track))
      else
        match env.mix_audio_result with
        | .ok duration => .ok (output_filename, duration)
        | .error m => .error (.exc m)
    else
      match env.mix_voice_only_result with
      | .ok duration => .ok (output_filename, duration)
      | .error m => .error (.exc m)

/-- generate.py lines 74-200, the generate endpoint for one stored stimulus.
Returns the HTTP-level result together with the stored row after the run
(none when no row matched the id).  The broad except handler converts any
exception raised inside the try block, including the HTTPException raised for
a missing music track, into a soft-failure 200 payload after recording status
failed. -/
def generate_stimulus (row? : Option StimulusRow) (env : PipelineEnv) :
    HttpResult GenerateResponse × Option StimulusRow :=
  match row? with
  | none => (.error 404 "Stimulus not found", none)
  | some row =>
    let stim := row_to_stimulus row
    if stim.text.speech_text = "" then
      (.error 400 "Stimulus has no speech text", some row)
    else if stim.voice.voice_id = "" then
      (.error 400 "Stimulus has no voice selected", some row)
    else
      let row1 := update_stimulus_status row "generating" none none
      match run_pipeline stim row.id env with
      | .ok (fname, duration) =>
        let row2 := update_stimulus_status row1 "generated" (some fname)
          (some duration)
        (.ok { stimulus_id := row.id, status := "generated"
               audio_url := some ("/outputs/" ++ fname)
               duration_ms := some duration, error := none }, some row2)
      | .error e =>
        let row2 := update_stimulus_status row1 "failed" none none
        (.ok { stimulus_id := row.id, status := "failed", audio_url := none
               duration_ms := none, error := some (pipelineErrorMessage e) },
         some row2)

/-! ## The catalog lifecycle of one stimulus row (claim C1)

Every write the system performs against a stored stimulus row: the insert
performed by create_stimulus, the full-field edit of update_stimulus, and the
status writes performed by a generation run (generate.py; the generate/direct
entry point performs the identical insert and status-write sequence). -/

/-- One mutation of a stored row after its creation. -/
inductive RowStep : StimulusRow → StimulusRow → Prop where
  | edit (row : StimulusRow) (s : StimulusCreate) :
      RowStep row (update_stimulus_row row s)
  | generate (row row2 : StimulusRow) (env : PipelineEnv) :
      (generate_stimulus (some row) env).2 = some row2 →
      RowStep row row2

/-- Rows that can ever exist in the stimuli table. -/
inductive ReachableRow : StimulusRow → Prop where
  | created (stimulus_id : String) (s : StimulusCreate) :
      ReachableRow (insert_stimulus_row stimulus_id s)
  | step (row row2 : StimulusRow) :
      ReachableRow row → RowStep row row2 → ReachableRow row2

/-- The invariant asserted by claim C1, phrased over the record
reconstructed by the data-access layer. -/
def claimedStatusInvariant (row : StimulusRow) : Prop :=
  let s := row_to_stimulus row
  (s.status = "generated" → s.audio_url ≠ none ∧ s.duration_ms ≠ none) ∧
  ((s.status = "draft" ∨ s.status = "failed") → s.audio_url = none)

/-- The half of the invariant the code actually maintains (plus the draft
case, which also holds): generated records carry audio and duration, and
draft records carry no audio. -/
def amendedStatusInvariant (row : StimulusRow) : Prop :=
  let s := row_to_stimulus row
  (s.status = "generated" → s.audio_url ≠ none ∧ s.duration_ms ≠ none) ∧
  (s.status = "draft" → s.audio_url = none)

/-! ## app/services/prosody.py

Only the pitch statistics relevant to the validity rule are carried; the
remaining profile fields (contours, energy, trajectory) do not influence any
branch of the embedded functions. -/

/-- The pitch statistics of an extracted prosody profile. -/
structure ProsodyProfile where
  pitch_mean : Rat
  pitch_std : Rat
deriving Repr, DecidableEq

/-- prosody.py lines 85-109, _is_valid_profile (the dict passed in is always
populated at the call sites, so the not-profile guard never fires). -/
def is_valid_profile (p : ProsodyProfile) : Bool :=
  decide (0 < p.pitch_mean) && decide (0 < p.pitch_std)

/-- The all-zero profile extract_prosody returns when extraction fails
(prosody.py lines 199-215). -/
def zeroProfile : ProsodyProfile :=
  { pitch_mean := 0, pitch_std := 0 }

/-- The filesystem facts one resolution of a single prosody reference can
observe: the sidecar cache content (none when the file is absent or
unreadable), whether the source audio exists, and the profile a fresh
extract_prosody run on that audio would produce. -/
structure ProsodyCacheState where
  cache : Option ProsodyProfile
  audio_present : Bool
  extract_result : ProsodyProfile
deriving Repr, DecidableEq

/-- prosody.py lines 243-305, the great_dictator branch of
get_prosody_profile for its one source audio file: the cached sidecar is
consulted first; an invalid sidecar is deleted; a fresh extraction is cached
only when valid.  Returns the resolved profile and the sidecar content
afterwards. -/
def get_profile_builtin (st : ProsodyCacheState) :
    Option ProsodyProfile × Option ProsodyProfile :=
  let afterCache : Option (Option ProsodyProfile × Option ProsodyProfile) :=
    match st.cache with
    | some p => if is_valid_profile p then some (some p, some p) else none
    | none => none
  match afterCache with
  | some r => r
  | none =>
    let cacheAfterDelete : Option ProsodyProfile :=
      match st.cache with
      | some p => if is_valid_profile p then some p else none
      | none => none
    if st.audio_present then
      if is_valid_profile st.extract_result then
        (some st.extract_result, some st.extract_result)
      else
        (none, cacheAfterDelete)
    else
      (none, cacheAfterDelete)

/-- prosody.py lines 307-354, the custom-reference branch of
get_prosody_profile for one matching source audio file: when the audio
exists, an invalid cached sidecar is deleted and re-extraction is attempted;
a fresh profile is cached only when valid. -/
def get_profile_custom (st : ProsodyCacheState) :
    Option ProsodyProfile × Option ProsodyProfile :=
  if ¬ st.audio_present then
    (none, st.cache)
  else
    match st.cache with
    | some p =>
      if is_valid_profile p then (some p, some p)
      else if is_valid_profile st.extract_result then
        (some st.extract_result, some st.extract_result)
      else (none, none)
    | none =>
      if is_valid_profile st.extract_result then
        (some st.extract_result, some st.extract_result)
      else (none, none)

/-- prosody.py lines 828-871, one iteration of preload_profiles for an audio
file present in the reference directory: an invalid existing sidecar is
deleted and re-extracted; a fresh profile is saved only when valid.  Returns
the sidecar content afterwards. -/
def preload_one (cache : Option ProsodyProfile)
    (extract_result : ProsodyProfile) : Option ProsodyProfile :=
  match cache with
  | some p =>
    if is_valid_profile p then some p
    else if is_valid_profile extract_result then some extract_result
    else none
  | none =>
    if is_valid_profile extract_result then some extract_result
    else none

/-- routers/prosody.py lines 107-131, the successful body of
upload_reference: after persisting the audio, the freshly extracted profile
is written to the sidecar JSON unconditionally, with no validity check.
Returns the sidecar content afterwards. -/
def upload_reference_cache (extract_result : ProsodyProfile) :
    Option ProsodyProfile :=
  some extract_result

/-- A sidecar state the validity rule allows: absent, or valid. -/
def cacheValidOrAbsent : Option ProsodyProfile → Bool
  | none => true
  | some p => is_valid_profile p

/-- prosody.py lines 439-444: the two blend factors of apply_prosody. -/
def mean_shift_factor (target_mean source_mean intensity : Rat) : Rat :=
  max (1/2) (min 2 (1 + (target_mean / source_mean - 1) * intensity))

/-- prosody.py line 443: the damped range-scale factor. -/
def range_scale_factor (target_std source_std intensity : Rat) : Rat :=
  max (1/2) (min 2 (1 + (target_std / source_std - 1) * intensity * (1/2)))

/-- The environment one apply_prosody run observes: the resolved target
profile, the pitch analysis of the source audio, whether the parselmouth
manipulation succeeds, and the fresh temp path the output would be saved
to. -/
structure ApplyProsodyEnv where
  profile : Option ProsodyProfile
  source_mean : Rat
  source_std : Rat
  analysis_ok : Bool
  out_path : String
deriving Repr, DecidableEq

/-- What an apply_prosody run did to the audio it returned. -/
inductive ProsodyOutcome where
  | unchanged
  | transformed (mean_shift range_scale : Rat)
deriving Repr, DecidableEq

/-- prosody.py lines 357-532, apply_prosody: returns the path of the audio
handed to the caller together with the transformation applied.  Every early
exit (reference none, nonpositive intensity, unresolved or invalid profile,
failed source analysis, exception) returns the input path unchanged. -/
def apply_prosody (voice_path : String) (reference : String)
    (intensity : Rat) (env : ApplyProsodyEnv) : String × ProsodyOutcome :=
  if reference = "none" ∨ intensity ≤ 0 then (voice_path, .unchanged)
  else
    match env.profile with
    | none => (voice_path, .unchanged)
    | some p =>
      if ¬ is_valid_profile p then (voice_path, .unchanged)
      else if ¬ env.analysis_ok then (voice_path, .unchanged)
      else if env.source_mean ≤ 0 ∨ env.source_std ≤ 0 then
        (voice_path, .unchanged)
      else
        let target_mean := if p.pitch_mean ≤ 0 then env.source_mean
          else p.pitch_mean
        let target_std := if p.pitch_std ≤ 0 then env.source_std
          else p.pitch_std
        (env.out_path,
          .transformed (mean_shift_factor target_mean env.source_mean intensity)
            (range_scale_factor target_std env.source_std intensity))

/-! ## app/services/tts.py

The retry loop of _synth_chunk (lines 102-155), parameterized by the outcome
the HTTP POST of each attempt would produce. -/

/-- Outcome of one requests.post call. -/
inductive AttemptOutcome where
  | response (statusCode : Nat)
  | connError
  | timeout
deriving Repr, DecidableEq

/-- The exception a failed synthesis run raises. -/
inductive TtsError where
  | httpError (statusCode : Nat)
  | connError
  | timeout
  | unknown
deriving Repr, DecidableEq

/-- The status codes the source treats as transient (tts.py line 114). -/
def transient_codes : List Nat := [429, 500, 502, 503, 504]

/-- tts.py line 68: the exponential backoff base. -/
def backoff_base : Rat := 3/2

/-- The error that escapes when the attempt with the given outcome fails and
is not retried: raise_for_status turns an HTTP status of 400 or above into an
HTTPError; connection errors and timeouts re-raise themselves. -/
def outcome_error : AttemptOutcome → TtsError
  | .response code => .httpError code
  | .connError => .connError
  | .timeout => .timeout

/-- Whether the attempt with this outcome fails (and, inside the loop, is
either retried or raised). -/
def attempt_fails : AttemptOutcome → Bool
  | .response code => decide (400 ≤ code)
  | .connError => true
  | .timeout => true

/-- tts.py lines 104-155: the retry loop of _synth_chunk.  The fuel argument
counts the remaining loop iterations (max_retries - attempt + 1); a transient
status retries with a backoff sleep or calls raise_for_status on the last
attempt, whose HTTPError is then caught by the broad RequestException handler
and re-raised; a non-transient error status raises HTTPError at
raise_for_status, which the RequestException handler also retries with the
same backoff until the attempts are exhausted; connection errors and timeouts
behave likewise.  Returns the outcome together with the list of backoff
sleeps performed, and on success the attempt number that succeeded. -/
def synth_chunk_loop (outcome : Nat → AttemptOutcome) (max_retries : Nat) :
    Nat → Nat → List Rat → Except TtsError Nat × List Rat
  | 0, _, sleeps => (.error .unknown, sleeps)
  | fuel + 1, attempt, sleeps =>
    match outcome attempt with
    | .response code =>
      if code ∈ transient_codes then
        if attempt < max_retries then
          synth_chunk_loop outcome max_retries fuel (attempt + 1)
            (sleeps ++ [backoff_base ^ attempt])
        else (.error (.httpError code), sleeps)
      else if 400 ≤ code then
        if attempt < max_retries then
          synth_chunk_loop outcome max_retries fuel (attempt + 1)
            (sleeps ++ [backoff_base ^ attempt])
        else (.error (.httpError code), sleeps)
      else (.ok attempt, sleeps)
    | .connError =>
      if attempt < max_retries then
        synth_chunk_loop outcome max_retries fuel (attempt + 1)
          (sleeps ++ [backoff_base ^ attempt])
      else (.error .connError, sleeps)
    | .timeout =>
      if attempt < max_retries then
        synth_chunk_loop outcome max_retries fuel (attempt + 1)
          (sleeps ++ [backoff_base ^ attempt])
      else (.error .timeout, sleeps)

/-- One per-chunk synthesis run with the default max_retries of 3. -/
def synth_chunk (outcome : Nat → AttemptOutcome) (max_retries : Nat) :
    Except TtsError Nat × List Rat :=
  synth_chunk_loop outcome max_retries max_retries 1 []

/-! ## app/services/mix.py

A pydub AudioSegment is modelled by its metadata and its raw byte string
(one list entry per byte). -/

/-- An in-memory audio buffer as pydub represents it. -/
structure AudioSeg where
  channels : Nat
  sample_width : Nat
  frame_rate : Nat
  raw : List Nat
deriving Repr, DecidableEq

/-- Bytes per frame (one sample on every channel). -/
def AudioSeg.frame_bytes (seg : AudioSeg) : Nat :=
  seg.channels * seg.sample_width

/-- Per-channel frame count, len(raw_data) // frame_bytes. -/
def AudioSeg.total_frames (seg : AudioSeg) : Nat :=
  seg.raw.length / seg.frame_bytes

/-- pydub AudioSegment.silent: int(frame_rate * duration / 1000) frames of
zero bytes (after set_channels / set_sample_width as used by the source). -/
def silent_frames (duration_ms frame_rate : Nat) : Nat :=
  frame_rate * duration_ms / 1000

/-- mix.py lines 116-137, _hard_fit_samples: exact raw truncation when the
buffer has at least the target frame count, otherwise concatenation of a
silence segment whose duration is the needed frame count converted to whole
milliseconds (int(1000 * need_frames / frame_rate)), followed by a byte
truncation to the target.  The millisecond conversions are modelled with
exact natural division; they agree with the float arithmetic of the source on
the concrete inputs evaluated below. -/
def hard_fit_samples (seg : AudioSeg) (target_samples_per_ch : Nat) :
    AudioSeg :=
  let fb := seg.frame_bytes
  let total_frames := seg.raw.length / fb
  if total_frames = target_samples_per_ch then seg
  else if target_samples_per_ch < total_frames then
    { seg with raw := seg.raw.take (target_samples_per_ch * fb) }
  else
    let need_frames := target_samples_per_ch - total_frames
    let pad_ms := 1000 * need_frames / seg.frame_rate
    let silence := List.replicate (silent_frames pad_ms seg.frame_rate * fb) 0
    let out := seg.raw ++ silence
    { seg with raw := out.take (target_samples_per_ch * fb) }

/-! ## app/routers/music.py -/

/-- The payload of a successful music duration lookup (music.py
lines 273-290), restricted to the numeric fields. -/
structure TrackDurationResponse where
  duration_ms : Int
  effective_duration_ms : Int
  target_words : Int
  estimated_speech_ms : Int
  used_wpm : Int
  used_safety_factor : Rat
deriving Repr, DecidableEq

/-- music.py lines 214-294, get_track_duration: 404 when the resolved path
does not exist, 500 when ffprobe cannot determine a positive duration,
otherwise the computed payload.  The probed duration is supplied as an
environment value (none models a probe failure). -/
def get_track_duration (track_exists : Bool) (probed_duration : Option Int)
    (voice_speed : Rat) (speech_entry_ms : Int) (crossfade_ms : Int)
    (wpm : Option Int) (safety_factor : Option Rat) :
    HttpResult TrackDurationResponse :=
  if ¬ track_exists then .error 404 "Track not found"
  else
    match probed_duration with
    | none => .error 500 "Could not determine track duration"
    | some duration_ms =>
      if duration_ms ≤ 0 then .error 500 "Could not determine track duration"
      else
        let base_wpm := wpm.getD DEFAULT_TTS_WPM
        let used_safety_factor := safety_factor.getD DEFAULT_SAFETY_FACTOR
        let target_words := calculate_target_words_adjusted duration_ms
          voice_speed speech_entry_ms crossfade_ms base_wpm used_safety_factor
        let effective_duration : Rat :=
          max 0 ((duration_ms : Rat) - (speech_entry_ms : Rat) -
            (crossfade_ms : Rat) / 2)
        let adjusted_wpm : Rat := (base_wpm : Rat) * voice_speed
        let estimated_speech_ms : Int :=
          if 0 < adjusted_wpm then
            pyInt ((target_words : Rat) / adjusted_wpm * 60 * 1000)
          else 0
        .ok { duration_ms := duration_ms
              effective_duration_ms := pyInt effective_duration
              target_words := target_words
              estimated_speech_ms := estimated_speech_ms
              used_wpm := base_wpm
              used_safety_factor := used_safety_factor }

/-! ## app/services/prompt.py style dictionary and app/routers/llm.py

The eleven system prompts are multi-hundred-line instruction texts; each is
embedded here abbreviated to its opening line.  The behavior under study
(lookup and fallback in get_system_prompt and the 404 branch of the router)
depends only on the key set and on the prompts being non-empty strings. -/

/-- The opening line of SYSTEM_PROMPTS of prompt.py (line 245 and
following). -/
def defaultSystemPrompt : String :=
  "You are a writer creating emotionally evocative spoken content designed to induce chills and goosebumps."

/-- prompt.py lines 244-606, SYSTEM_PROMPTS, keys in source order with each
text abbreviated to its opening line. -/
def SYSTEM_PROMPTS : List (String × String) :=
  [("default", defaultSystemPrompt),
   ("chaplin", "You are writing in the style of Charlie Chaplin"),
   ("desiderata", "You are writing in the style of Max Ehrmann"),
   ("rilke", "You are writing in the style of Rainer Maria Rilke"),
   ("camus", "You are writing in the style of Albert Camus"),
   ("sagan", "You are writing in the style of Carl Sagan - combining cosmic wonder with intimate human reflection."),
   ("meditation", "You are writing a contemplative meditation designed to create a profound sense of peace and connection."),
   ("gratitude", "You are writing a reflection on gratitude and human connection designed to move the listener deeply."),
   ("wonder", "You are writing about the profound wonder of existence - the miracle of consciousness experiencing itself."),
   ("interstellar", "You are writing in the emotional style of the film Interstellar - combining love, time, sacrifice, and cosmic scale."),
   ("inception", "You are writing in the layered, philosophical style of Inception - exploring the nature of reality, dreams, and what we hold onto.")]

/-- prompt.py lines 752-754, get_system_prompt: dictionary get with the
default prompt as the fallback for unknown keys. -/
def get_system_prompt (style : String) : String :=
  match SYSTEM_PROMPTS.lookup style with
  | some p => p
  | none => defaultSystemPrompt

/-- routers/llm.py lines 130-139, get_style_details: the 404 is raised only
when get_system_prompt returns a falsy string, which the fallback makes
impossible. -/
def get_style_details (style_id : String) : HttpResult (String × String) :=
  let prompt := get_system_prompt style_id
  if prompt = "" then .error 404 "Style not found"
  else .ok (style_id, prompt)

/-! # Theorems -/

/-! ## Claim C3: the adjusted word-budget calculator -/

/-- The rational value whose truncation the adjusted calculator takes. -/
def adjusted_raw (duration_ms : Int) (voice_speed : Rat)
    (speech_entry_ms : Int) (base_wpm : Int) (safety_factor : Rat) : Rat :=
  ((max 0 (duration_ms - speech_entry_ms) : Int) : Rat) / 60000 *
    ((base_wpm : Rat) * max (1/2) (min 2 voice_speed)) * safety_factor

theorem calculate_target_words_adjusted_eq (duration_ms : Int)
    (voice_speed : Rat) (speech_entry_ms crossfade_ms : Int) (base_wpm : Int)
    (safety_factor : Rat) :
    calculate_target_words_adjusted duration_ms voice_speed speech_entry_ms
        crossfade_ms base_wpm safety_factor =
      max 10 (pyInt (adjusted_raw duration_ms voice_speed speech_entry_ms
        base_wpm safety_factor)) := rfl

theorem adjusted_raw_nonneg (duration_ms : Int) (voice_speed : Rat)
    (speech_entry_ms : Int) (base_wpm : Int) (safety_factor : Rat)
    (hw : 0 ≤ base_wpm) (hs : 0 ≤ safety_factor) :
    0 ≤ adjusted_raw duration_ms voice_speed speech_entry_ms base_wpm
      safety_factor := by
  have h1 : (0 : Rat) ≤ ((max 0 (duration_ms - speech_entry_ms) : Int) : Rat) := by
    exact_mod_cast le_max_left 0 (duration_ms - speech_entry_ms)
  have h2 : (0 : Rat) ≤ max (1/2) (min 2 voice_speed) :=
    le_trans (by norm_num) (le_max_left _ _)
  have h3 : (0 : Rat) ≤ (base_wpm : Rat) := by exact_mod_cast hw
  exact mul_nonneg (mul_nonneg (div_nonneg h1 (by norm_num))
    (mul_nonneg h3 h2)) hs

theorem adjusted_mono_core (a b : Rat) (h0 : 0 ≤ a) (h : a ≤ b) :
    max 10 (pyInt a) ≤ max 10 (pyInt b) :=
  max_le_max le_rfl (pyInt_mono_of_nonneg a b h0 h)

/-- C3.
The adjusted word-budget calculator (prompt.py calculate_target_words_adjusted)
is monotonically non-decreasing in the duration and in the voice speed and
non-increasing in the speech-entry delay, for any fixed non-negative
words-per-minute and safety factor; but for the 360000 ms track at speed 1.0
with a 3000 ms entry delay at the default 102 wpm and safety 1.0 it returns
606 words (the truncation of 606.9), not the 607 the claim states. -/
theorem c3_adjusted_words_monotone_and_value (d d' e e' c : Int)
    (v v' s : Rat) (w : Int) (hw : 0 ≤ w) (hs : 0 ≤ s) :
    ((d ≤ d' → calculate_target_words_adjusted d v e c w s ≤
        calculate_target_words_adjusted d' v e c w s) ∧
     (v ≤ v' → calculate_target_words_adjusted d v e c w s ≤
        calculate_target_words_adjusted d v' e c w s) ∧
     (e ≤ e' → calculate_target_words_adjusted d v e' c w s ≤
        calculate_target_words_adjusted d v e c w s)) ∧
    calculate_target_words_adjusted 360000 1 3000 2000 DEFAULT_TTS_WPM
      DEFAULT_SAFETY_FACTOR = 606 := by
  have hwq : (0 : Rat) ≤ (w : Rat) := by exact_mod_cast hw
  have hclamp : ∀ u : Rat, (0 : Rat) ≤ max (1/2) (min 2 u) := fun u =>
    le_trans (by norm_num) (le_max_left _ _)
  refine ⟨⟨?_, ?_, ?_⟩, ?_⟩
  · intro hd
    rw [calculate_target_words_adjusted_eq, calculate_target_words_adjusted_eq]
    refine adjusted_mono_core _ _
      (adjusted_raw_nonneg d v e w s hw hs) ?_
    unfold adjusted_raw
    have hcast : ((max 0 (d - e) : Int) : Rat) ≤ ((max 0 (d' - e) : Int) : Rat) := by
      exact_mod_cast max_le_max le_rfl (sub_le_sub_right hd e)
    refine mul_le_mul_of_nonneg_right ?_ hs
    refine mul_le_mul_of_nonneg_right ?_ (mul_nonneg hwq (hclamp v))
    exact div_le_div_of_nonneg_right hcast (by norm_num)
  · intro hv
    rw [calculate_target_words_adjusted_eq, calculate_target_words_adjusted_eq]
    refine adjusted_mono_core _ _
      (adjusted_raw_nonneg d v e w s hw hs) ?_
    unfold adjusted_raw
    have hmin : ((max 0 (d - e) : Int) : Rat) / 60000 *
        ((w : Rat) * max (1/2) (min 2 v)) ≤
        ((max 0 (d - e) : Int) : Rat) / 60000 *
        ((w : Rat) * max (1/2) (min 2 v')) := by
      refine mul_le_mul_of_nonneg_left ?_ ?_
      · exact mul_le_mul_of_nonneg_left
          (max_le_max le_rfl (min_le_min le_rfl hv)) hwq
      · refine div_nonneg ?_ (by norm_num)
        exact_mod_cast le_max_left 0 (d - e)
    exact mul_le_mul_of_nonneg_right hmin hs
  · intro he
    rw [calculate_target_words_adjusted_eq, calculate_target_words_adjusted_eq]
    refine adjusted_mono_core _ _
      (adjusted_raw_nonneg d v e' w s hw hs) ?_
    unfold adjusted_raw
    have hcast : ((max 0 (d - e') : Int) : Rat) ≤ ((max 0 (d - e) : Int) : Rat) := by
      exact_mod_cast max_le_max le_rfl (sub_le_sub_left he d)
    refine mul_le_mul_of_nonneg_right ?_ hs
    refine mul_le_mul_of_nonneg_right ?_ (mul_nonneg hwq (hclamp v))
    exact div_le_div_of_nonneg_right hcast (by norm_num)
  · norm_num [calculate_target_words_adjusted, pyInt, DEFAULT_TTS_WPM,
      DEFAULT_SAFETY_FACTOR]

/-- C3 witness: the theorem applied at concrete inputs. -/
theorem c3_adjusted_words_witness :
    (0 : Int) ≤ 102 ∧ (0 : Rat) ≤ 1 ∧
    calculate_target_words_adjusted 60000 1 0 0 102 1 ≤
      calculate_target_words_adjusted 120000 1 0 0 102 1 :=
  ⟨by norm_num, by norm_num,
    ((c3_adjusted_words_monotone_and_value 60000 120000 0 0 0 1 1 1 102
      (by norm_num) (by norm_num)).1.1 (by norm_num))⟩

/-- C3 counterexample: the claimed concrete value 607 is wrong; the source
truncates 606.9 to 606. -/
theorem c3_adjusted_words_counterexample :
    calculate_target_words_adjusted 360000 1 3000 2000 DEFAULT_TTS_WPM
        DEFAULT_SAFETY_FACTOR = 606 ∧ (606 : Int) ≠ 607 := by
  constructor
  · norm_num [calculate_target_words_adjusted, pyInt, DEFAULT_TTS_WPM,
      DEFAULT_SAFETY_FACTOR]
  · norm_num

/-! ## Claim C10: the style-details endpoint -/

theorem lookup_val_mem {l : List (String × String)} {k v : String}
    (h : l.lookup k = some v) : v ∈ l.map Prod.snd := by
  induction l with
  | nil => simp [List.lookup] at h
  | cons hd tl ih =>
    rw [List.lookup] at h
    by_cases hk : k == hd.1
    · simp [hk] at h
      simp [h]
    · simp [hk] at h
      simp [ih h]

theorem system_prompts_nonempty :
    ∀ v ∈ SYSTEM_PROMPTS.map Prod.snd, v ≠ "" := by
  decide

/-- C10 (amended).
get_style_details returns the raw system-prompt text for a defined style id;
for an unknown style id, get_system_prompt falls back to the default style
prompt (prompt.py line 754), which is non-empty, so the 404 branch of the
router is unreachable and the endpoint answers 200 with the default prompt
instead. -/
theorem c10_style_details (style p : String) :
    (SYSTEM_PROMPTS.lookup style = some p →
      get_style_details style = .ok (style, p)) ∧
    (SYSTEM_PROMPTS.lookup style = none →
      get_style_details style = .ok (style, defaultSystemPrompt)) := by
  constructor
  · intro h
    have hp : p ≠ "" := system_prompts_nonempty p (lookup_val_mem h)
    simp [get_style_details, get_system_prompt, h, hp]
  · intro h
    have hd : defaultSystemPrompt ≠ "" := by decide
    simp [get_style_details, get_system_prompt, h, hd]

/-- C10 witness: the theorem applied at the sagan style. -/
theorem c10_style_details_witness :
    get_style_details "sagan" =
      .ok ("sagan", "You are writing in the style of Carl Sagan - combining cosmic wonder with intimate human reflection.") :=
  (c10_style_details "sagan" _).1 (by decide)

/-- C10 counterexample: an unknown style id does not yield a 404; the
endpoint returns the default prompt with HTTP 200. -/
theorem c10_style_details_counterexample :
    get_style_details "nonexistent_style" =
      .ok ("nonexistent_style", defaultSystemPrompt) ∧
    get_style_details "nonexistent_style" ≠ .error 404 "Style not found" := by
  constructor
  · decide
  · decide

/-! ## Claim C4: the prosody profile validity gate -/

/-- C4 (amended).
Resolution of a prosody profile through the service (both the built-in and
the custom branch of get_prosody_profile) and the preload never return an
invalid profile, never cache a freshly extracted invalid profile, and delete
an invalid cached sidecar whenever they read one (the custom branch consults
the sidecar only when the source audio exists, so an invalid sidecar whose
audio is gone is merely never read).  The reference-upload router endpoint,
however, writes the freshly extracted profile to the sidecar cache
unconditionally (see the counterexample). -/
theorem c4_profile_validity_gate (st : ProsodyCacheState) :
    cacheValidOrAbsent (get_profile_builtin st).1 = true ∧
    cacheValidOrAbsent (get_profile_builtin st).2 = true ∧
    cacheValidOrAbsent (get_profile_custom st).1 = true ∧
    (st.audio_present = true →
      cacheValidOrAbsent (get_profile_custom st).2 = true) ∧
    cacheValidOrAbsent (preload_one st.cache st.extract_result) = true := by
  obtain ⟨cache, audio, ext⟩ := st
  cases cache <;> cases audio <;>
    simp only [get_profile_builtin, get_profile_custom, preload_one] <;>
    split_ifs <;>
    simp_all [cacheValidOrAbsent]

/-- C4 witness: the theorem applied to a state holding an invalid sidecar
next to an audio file whose fresh extraction also fails: the sidecar ends up
deleted. -/
theorem c4_profile_validity_witness :
    cacheValidOrAbsent
      (get_profile_custom
        { cache := some zeroProfile, audio_present := true
          extract_result := zeroProfile }).2 = true :=
  (c4_profile_validity_gate
    { cache := some zeroProfile, audio_present := true
      extract_result := zeroProfile }).2.2.2.1 rfl

/-- C4 counterexample: uploading a reference whose extraction fails (the
all-zero profile) writes the invalid profile to the sidecar cache
(routers/prosody.py lines 115-124 perform no validity check), violating the
claim for the reference-upload path. -/
theorem c4_profile_validity_counterexample :
    upload_reference_cache zeroProfile = some zeroProfile ∧
    is_valid_profile zeroProfile = false ∧
    cacheValidOrAbsent (upload_reference_cache zeroProfile) = false := by
  refine ⟨rfl, ?_, ?_⟩ <;>
    norm_num [is_valid_profile, zeroProfile, upload_reference_cache,
      cacheValidOrAbsent]

/-! ## Claim C6: prosody transfer clamping and no-op -/

/-- C6.
For a source analyzed at 120 Hz mean and 20 Hz std and a valid target profile
of 300 Hz mean and 5 Hz std at intensity 1.0, the raw mean-shift ratio is 2.5
and the applied factor is clamped to 2.0 (the range scale is 0.625); and with
intensity 0 or reference none, apply_prosody returns the input path unchanged
regardless of the profile in the environment. -/
theorem c6_apply_prosody_clamp_and_noop (voice_path reference : String)
    (intensity : Rat) (env : ApplyProsodyEnv) :
    (apply_prosody "voice.wav" "great_dictator" 1
        { profile := some { pitch_mean := 300, pitch_std := 5 }
          source_mean := 120, source_std := 20, analysis_ok := true
          out_path := "shifted.wav" } =
        ("shifted.wav", .transformed 2 (5/8)) ∧
      (1 + ((300 : Rat) / 120 - 1) * 1) = 5/2) ∧
    (reference = "none" ∨ intensity ≤ 0 →
      apply_prosody voice_path reference intensity env =
        (voice_path, .unchanged)) := by
  refine ⟨⟨?_, by norm_num⟩, ?_⟩
  · have hcond : ¬(("great_dictator" : String) = "none" ∨ (1 : Rat) ≤ 0) := by
      rintro (h | h)
      · exact absurd h (by decide)
      · norm_num at h
    unfold apply_prosody
    rw [if_neg hcond]
    norm_num [is_valid_profile, mean_shift_factor, range_scale_factor]
  · intro h
    unfold apply_prosody
    rw [if_pos h]

/-- C6 witness: the no-op branch applied at intensity zero. -/
theorem c6_apply_prosody_witness :
    apply_prosody "narration.wav" "great_dictator" 0
      { profile := some { pitch_mean := 300, pitch_std := 5 }
        source_mean := 120, source_std := 20, analysis_ok := true
        out_path := "shifted.wav" } = ("narration.wav", .unchanged) :=
  (c6_apply_prosody_clamp_and_noop "narration.wav" "great_dictator" 0
    { profile := some { pitch_mean := 300, pitch_std := 5 }
      source_mean := 120, source_std := 20, analysis_ok := true
      out_path := "shifted.wav" }).2 (Or.inr (by norm_num))

/-! ## Claim C5: per-chunk synthesis retry policy -/

theorem transient_implies_http_error {code : Nat}
    (h : code ∈ transient_codes) : 400 ≤ code := by
  simp [transient_codes] at h
  rcases h with rfl | rfl | rfl | rfl | rfl <;> norm_num

/-- One loop iteration: every failing outcome, transient or not, behaves the
same way: retry with a backoff sleep while attempts remain, otherwise raise
that outcome's error. -/
theorem synth_chunk_loop_step (outcome : Nat → AttemptOutcome)
    (max_retries fuel attempt : Nat) (sleeps : List Rat) :
    synth_chunk_loop outcome max_retries (fuel + 1) attempt sleeps =
      if attempt_fails (outcome attempt) then
        if attempt < max_retries then
          synth_chunk_loop outcome max_retries fuel (attempt + 1)
            (sleeps ++ [backoff_base ^ attempt])
        else (.error (outcome_error (outcome attempt)), sleeps)
      else (.ok attempt, sleeps) := by
  cases h : outcome attempt with
  | response code =>
    rw [synth_chunk_loop, h]
    by_cases htr : code ∈ transient_codes
    · have h400 : 400 ≤ code := transient_implies_http_error htr
      simp [htr, h400, attempt_fails, outcome_error]
    · by_cases h400 : 400 ≤ code
      · simp [htr, h400, attempt_fails, outcome_error]
      · simp [htr, h400, attempt_fails]
  | connError => rw [synth_chunk_loop, h]; simp [attempt_fails, outcome_error]
  | timeout => rw [synth_chunk_loop, h]; simp [attempt_fails, outcome_error]

/-- C5 (amended).
With the default 3 total attempts, every kind of failure is retried, with
backoff sleeps of 1.5 s and then 2.25 s between attempts, and exhausting the
attempts raises the error observed on the last attempt; this includes
non-transient HTTP errors, which are retried exactly like the transient
ones because raise_for_status raises inside the try block and the broad
RequestException handler retries them (tts.py lines 143-151), contrary to
the claim that they raise immediately. -/
theorem c5_retry_policy (outcome : Nat → AttemptOutcome) :
    (attempt_fails (outcome 1) = false →
      synth_chunk outcome 3 = (.ok 1, [])) ∧
    (attempt_fails (outcome 1) = true → attempt_fails (outcome 2) = false →
      synth_chunk outcome 3 = (.ok 2, [3/2])) ∧
    (attempt_fails (outcome 1) = true → attempt_fails (outcome 2) = true →
      attempt_fails (outcome 3) = false →
      synth_chunk outcome 3 = (.ok 3, [3/2, 9/4])) ∧
    (attempt_fails (outcome 1) = true → attempt_fails (outcome 2) = true →
      attempt_fails (outcome 3) = true →
      synth_chunk outcome 3 =
        (.error (outcome_error (outcome 3)), [3/2, 9/4])) := by
  have hb1 : backoff_base ^ 1 = 3/2 := by norm_num [backoff_base]
  have hb2 : backoff_base ^ 2 = 9/4 := by norm_num [backoff_base]
  refine ⟨?_, ?_, ?_, ?_⟩
  · intro h1
    rw [synth_chunk, synth_chunk_loop_step, h1]
    norm_num
  · intro h1 h2
    rw [synth_chunk, synth_chunk_loop_step, h1, synth_chunk_loop_step, h2]
    norm_num [hb1]
  · intro h1 h2 h3
    rw [synth_chunk, synth_chunk_loop_step, h1, synth_chunk_loop_step, h2,
      synth_chunk_loop_step, h3]
    norm_num [hb1, hb2]
  · intro h1 h2 h3
    rw [synth_chunk, synth_chunk_loop_step, h1, synth_chunk_loop_step, h2,
      synth_chunk_loop_step, h3]
    norm_num [hb1, hb2]

/-- The attempt outcomes of the counterexample run: a non-transient HTTP 400
on the first attempt, success afterwards. -/
def c5Outcome : Nat → AttemptOutcome
  | 1 => .response 400
  | _ => .response 200

/-- C5 witness: the theorem applied to the counterexample outcomes. -/
theorem c5_retry_policy_witness :
    synth_chunk c5Outcome 3 = (.ok 2, [3/2]) :=
  (c5_retry_policy c5Outcome).2.1 (by decide) (by decide)

/-- C5 counterexample: a non-transient HTTP 400 on the first attempt does not
raise immediately; the run sleeps once (1.5 s) and succeeds on the second
attempt. -/
theorem c5_retry_policy_counterexample :
    synth_chunk c5Outcome 3 = (.ok 2, [3/2]) ∧
    synth_chunk c5Outcome 3 ≠ (.error (.httpError 400), []) := by
  have h : synth_chunk c5Outcome 3 = (.ok 2, [3/2]) := by
    rw [synth_chunk, synth_chunk_loop_step, synth_chunk_loop_step]
    norm_num [c5Outcome, attempt_fails, backoff_base]
  refine ⟨h, ?_⟩
  rw [h]
  simp

/-! ## Claim C9: the music duration endpoint -/

/-- C9 (amended).
For an existing track whose duration probes to a positive value, the endpoint
answers 200 with an effective duration equal to the duration minus the
speech-entry delay minus half the crossfade length, floored at zero (the
claim wrongly states that no crossfade share is subtracted), while the
target word count is computed by the adjusted calculator, which does not
depend on the crossfade at all. -/
theorem c9_track_duration (probed : Int) (vs : Rat) (e c : Int)
    (w : Option Int) (sf : Option Rat) (hd : 0 < probed) :
    get_track_duration true (some probed) vs e c w sf =
      .ok { duration_ms := probed
            effective_duration_ms :=
              pyInt (max 0 ((probed : Rat) - (e : Rat) - (c : Rat) / 2))
            target_words := calculate_target_words_adjusted probed vs e c
              (w.getD DEFAULT_TTS_WPM) (sf.getD DEFAULT_SAFETY_FACTOR)
            estimated_speech_ms :=
              if 0 < ((w.getD DEFAULT_TTS_WPM : Int) : Rat) * vs then
                pyInt ((calculate_target_words_adjusted probed vs e c
                    (w.getD DEFAULT_TTS_WPM)
                    (sf.getD DEFAULT_SAFETY_FACTOR) : Rat) /
                  (((w.getD DEFAULT_TTS_WPM : Int) : Rat) * vs) * 60 * 1000)
              else 0
            used_wpm := w.getD DEFAULT_TTS_WPM
            used_safety_factor := sf.getD DEFAULT_SAFETY_FACTOR } ∧
    (∀ c' : Int, calculate_target_words_adjusted probed vs e c
        (w.getD DEFAULT_TTS_WPM) (sf.getD DEFAULT_SAFETY_FACTOR) =
      calculate_target_words_adjusted probed vs e c'
        (w.getD DEFAULT_TTS_WPM) (sf.getD DEFAULT_SAFETY_FACTOR)) := by
  constructor
  · simp [get_track_duration, not_le.mpr hd]
  · intro c'
    rfl

/-- C9 witness: the crossfade-independence of the word budget, obtained from
the theorem at the default endpoint parameters for a six-minute track. -/
theorem c9_track_duration_witness :
    calculate_target_words_adjusted 360000 1 3000 2000 102 1 =
      calculate_target_words_adjusted 360000 1 3000 0 102 1 :=
  (c9_track_duration 360000 1 3000 2000 none none (by norm_num)).2 0

/-- C9 counterexample: for a 360000 ms track with a 3000 ms entry delay and
the default 2000 ms crossfade, the reported effective duration is 356000 ms
(half the crossfade subtracted), not the 357000 ms the claim implies. -/
theorem c9_track_duration_counterexample :
    get_track_duration true (some 360000) 1 3000 2000 none none =
      .ok { duration_ms := 360000, effective_duration_ms := 356000
            target_words := 606, estimated_speech_ms := 356470
            used_wpm := 102, used_safety_factor := 1 } ∧
    (356000 : Int) ≠ max 0 (360000 - 3000) := by
  constructor
  · norm_num [get_track_duration, calculate_target_words_adjusted, pyInt,
      DEFAULT_TTS_WPM, DEFAULT_SAFETY_FACTOR]
  · norm_num

/-! ## Claim C7: sample-accurate fitting -/

theorem pad_shortfall (rate need : Nat) (hrate : 0 < rate) :
    rate * (1000 * need / rate) / 1000 ≤ need ∧
    need - rate * (1000 * need / rate) / 1000 ≤ rate / 1000 + 1 := by
  have e1 := Nat.div_add_mod (1000 * need) rate
  have hr1 : 1000 * need % rate < rate := Nat.mod_lt _ hrate
  have e2 := Nat.div_add_mod (rate * (1000 * need / rate)) 1000
  have e3 := Nat.div_add_mod rate 1000
  omega

theorem hard_fit_eq_of_eq (seg : AudioSeg) (target : Nat)
    (h : seg.raw.length / seg.frame_bytes = target) :
    hard_fit_samples seg target = seg := by
  simp only [hard_fit_samples]
  rw [if_pos h]

theorem hard_fit_eq_of_gt (seg : AudioSeg) (target : Nat)
    (h : target < seg.raw.length / seg.frame_bytes) :
    hard_fit_samples seg target =
      { seg with raw := seg.raw.take (target * seg.frame_bytes) } := by
  simp only [hard_fit_samples]
  rw [if_neg (by omega), if_pos h]

theorem hard_fit_eq_of_lt (seg : AudioSeg) (target : Nat)
    (h : seg.raw.length / seg.frame_bytes < target) :
    hard_fit_samples seg target =
      { seg with raw := ((seg.raw ++ List.replicate
          (silent_frames
            (1000 * (target - seg.raw.length / seg.frame_bytes) /
              seg.frame_rate) seg.frame_rate * seg.frame_bytes) 0).take
          (target * seg.frame_bytes)) } := by
  simp only [hard_fit_samples]
  rw [if_neg (by omega), if_neg (by omega)]

theorem frame_bytes_set_raw (seg : AudioSeg) (raw : List Nat) :
    ({ seg with raw := raw } : AudioSeg).frame_bytes = seg.frame_bytes := rfl

/-- C7 (amended).
hard_fit_samples returns exactly the target frame count whenever the buffer
holds at least that many frames (raw truncation); when the buffer is shorter
it appends silence, but because the pad length is first rounded down to whole
milliseconds the result can fall short of the target, by at most
frame_rate / 1000 + 1 frames (it never exceeds the target). -/
theorem c7_hard_fit_samples (seg : AudioSeg) (target : Nat)
    (hfb : 0 < seg.frame_bytes) (hdvd : seg.frame_bytes ∣ seg.raw.length)
    (hrate : 0 < seg.frame_rate) :
    (target ≤ seg.total_frames →
      (hard_fit_samples seg target).total_frames = target) ∧
    (seg.total_frames < target →
      (hard_fit_samples seg target).raw =
        seg.raw ++ List.replicate
          (silent_frames (1000 * (target - seg.total_frames) / seg.frame_rate)
            seg.frame_rate * seg.frame_bytes) 0 ∧
      (hard_fit_samples seg target).total_frames ≤ target ∧
      target - (hard_fit_samples seg target).total_frames ≤
        seg.frame_rate / 1000 + 1) := by
  obtain ⟨len, hlen⟩ := hdvd
  have hdivlen : seg.raw.length / seg.frame_bytes = len := by
    simp [hlen, Nat.mul_div_cancel_left len hfb]
  have htotal : seg.total_frames = len := hdivlen
  constructor
  · intro hle
    rw [htotal] at hle
    by_cases heq : len = target
    · rw [hard_fit_eq_of_eq seg target (by rw [hdivlen, heq]), htotal, heq]
    · have hlt : target < len := lt_of_le_of_ne hle (fun h => heq h.symm)
      rw [hard_fit_eq_of_gt seg target (by rw [hdivlen]; exact hlt)]
      show (seg.raw.take (target * seg.frame_bytes)).length /
        seg.frame_bytes = target
      rw [List.length_take, hlen]
      rw [min_eq_left (by
        rw [mul_comm seg.frame_bytes len]
        exact Nat.mul_le_mul_right _ (le_of_lt hlt))]
      exact Nat.mul_div_cancel _ hfb
  · intro hlt
    rw [htotal] at hlt
    have hrw := hard_fit_eq_of_lt seg target (by rw [hdivlen]; exact hlt)
    rw [hdivlen] at hrw
    have hsil := pad_shortfall seg.frame_rate (target - len) hrate
    -- the concatenated buffer is still no longer than the target, so the
    -- final byte truncation is the identity
    have houtlen : (seg.raw ++ List.replicate
        (silent_frames (1000 * (target - len) / seg.frame_rate)
          seg.frame_rate * seg.frame_bytes) 0).length =
        (len + seg.frame_rate * (1000 * (target - len) / seg.frame_rate) /
          1000) * seg.frame_bytes := by
      simp [hlen, silent_frames]
      ring
    have htake : (seg.raw ++ List.replicate
        (silent_frames (1000 * (target - len) / seg.frame_rate)
          seg.frame_rate * seg.frame_bytes) 0).take
          (target * seg.frame_bytes) =
        seg.raw ++ List.replicate
          (silent_frames (1000 * (target - len) / seg.frame_rate)
            seg.frame_rate * seg.frame_bytes) 0 := by
      apply List.take_of_length_le
      rw [houtlen]
      exact Nat.mul_le_mul_right _ (by omega)
    have hraw : (hard_fit_samples seg target).raw =
        seg.raw ++ List.replicate
          (silent_frames (1000 * (target - len) / seg.frame_rate)
            seg.frame_rate * seg.frame_bytes) 0 := by
      rw [hrw]
      exact htake
    have hframes : (hard_fit_samples seg target).total_frames =
        len + seg.frame_rate * (1000 * (target - len) / seg.frame_rate) /
          1000 := by
      have hfbres : (hard_fit_samples seg target).frame_bytes =
          seg.frame_bytes := by
        rw [hrw]
        rfl
      rw [AudioSeg.total_frames, hfbres, hraw, houtlen,
        Nat.mul_div_cancel _ hfb]
    refine ⟨?_, ?_, ?_⟩
    · rw [hraw, htotal]
    · rw [hframes]; omega
    · rw [hframes]; omega

/-- The narration buffer of the counterexample: 10 stereo 16-bit frames at
44100 Hz. -/
def shortSeg : AudioSeg :=
  { channels := 2, sample_width := 2, frame_rate := 44100
    raw := List.replicate 40 0 }

/-- C7 witness: the truncation branch of the theorem applied to a concrete
buffer longer than the target. -/
theorem c7_hard_fit_samples_witness :
    (hard_fit_samples shortSeg 4).total_frames = 4 :=
  (c7_hard_fit_samples shortSeg 4 (by decide) (by decide) (by decide)).1
    (by decide)

set_option maxRecDepth 4000 in
/-- C7 counterexample: fitting a 10-frame buffer up to 100 frames pads only
88 frames of silence (the 90 needed frames round down to 2 ms of padding),
so the result holds 98 frames, not the target 100. -/
theorem c7_hard_fit_samples_counterexample :
    (hard_fit_samples shortSeg 100).total_frames = 98 ∧ (98 : Nat) ≠ 100 := by
  constructor
  · decide
  · decide

/-! ## Claim C8: default backfill on row reconstruction -/

/-- A stored string value Python treats as falsy. -/
def falsyStr (v : Option String) : Prop := v = none ∨ v = some ""

/-- A stored REAL value Python treats as falsy. -/
def falsyRat (v : Option Rat) : Prop := v = none ∨ v = some 0

/-- A stored INTEGER value Python treats as falsy. -/
def falsyInt (v : Option Int) : Prop := v = none ∨ v = some 0

theorem orStr_falsy (v : Option String) (d : String) (h : falsyStr v) :
    orStr v d = d := by
  rcases h with rfl | rfl
  · rfl
  · show (if ("" : String) = "" then d else "") = d
    rw [if_pos rfl]

theorem orRat_falsy (v : Option Rat) (d : Rat) (h : falsyRat v) :
    orRat v d = d := by
  rcases h with rfl | rfl
  · rfl
  · show (if (0 : Rat) = 0 then d else 0) = d
    rw [if_pos rfl]

theorem orInt_falsy (v : Option Int) (d : Int) (h : falsyInt v) :
    orInt v d = d := by
  rcases h with rfl | rfl
  · rfl
  · show (if (0 : Int) = 0 then d else 0) = d
    rw [if_pos rfl]

theorem pyBool_falsy (v : Option Int) (h : falsyInt v) : pyBool v = false := by
  rcases h with rfl | rfl
  · rfl
  · show ((0 : Int) != 0) = false
    decide

/-- The stimulus creation payload of the round-trip example: only
voice.voice_id is set, everything else keeps its schema default. -/
def c8Create : StimulusCreate :=
  { defaultStimulusCreate with
    voice := { defaultVoiceParams with voice_id := "voice-1" } }

/-- C8 (amended).
Row reconstruction backfills every absent-or-falsy stored parameter field
with its documented default, with one exception: voice.speaker_boost is
passed through bool() and therefore resolves to false, not to its documented
default true, when the stored value is absent or zero.  The round-trip of
the claim (creating a stimulus with only voice.voice_id set and reading it
back) nonetheless yields every documented default including
speaker_boost = true, because the schema default true is applied at write
time and stored as 1. -/
theorem c8_default_backfill (row : StimulusRow) :
    ((falsyRat row.music_volume_db →
      (row_to_stimulus row).music.volume_db = -6) ∧
     (falsyInt row.music_speech_entry_ms →
      (row_to_stimulus row).music.speech_entry_ms = 0) ∧
     (falsyInt row.music_crossfade_ms →
      (row_to_stimulus row).music.crossfade_ms = 2000) ∧
     (falsyStr row.voice_model →
      (row_to_stimulus row).voice.model = "eleven_multilingual_v2") ∧
     (falsyRat row.voice_stability →
      (row_to_stimulus row).voice.stability = 1/2) ∧
     (falsyRat row.voice_similarity_boost →
      (row_to_stimulus row).voice.similarity_boost = 3/4) ∧
     (falsyRat row.voice_style_exaggeration →
      (row_to_stimulus row).voice.style_exaggeration = 0) ∧
     (falsyRat row.voice_speed →
      (row_to_stimulus row).voice.speed = 1) ∧
     (falsyStr row.text_source →
      (row_to_stimulus row).text.source = "manual") ∧
     (falsyRat row.text_llm_temperature →
      (row_to_stimulus row).text.llm_temperature = 7/10) ∧
     (falsyRat row.mix_reverb_mix →
      (row_to_stimulus row).mix.reverb_mix = 25) ∧
     (falsyRat row.mix_reverb_decay →
      (row_to_stimulus row).mix.reverb_decay = 3/2) ∧
     (falsyRat row.mix_compression_ratio →
      (row_to_stimulus row).mix.compression_ratio = 2) ∧
     (falsyRat row.mix_deesser_threshold →
      (row_to_stimulus row).mix.deesser_threshold = -6) ∧
     (falsyInt row.mix_eq_low_cut →
      (row_to_stimulus row).mix.eq_low_cut = 80) ∧
     (falsyInt row.mix_eq_high_cut →
      (row_to_stimulus row).mix.eq_high_cut = 12000) ∧
     (falsyInt row.mix_pitch_shift →
      (row_to_stimulus row).mix.pitch_shift = 0) ∧
     (falsyRat row.mix_normalization_lufs →
      (row_to_stimulus row).mix.normalization_lufs = -16) ∧
     (falsyStr row.prosody_reference →
      (row_to_stimulus row).prosody.reference = "none") ∧
     (falsyRat row.prosody_intensity →
      (row_to_stimulus row).prosody.intensity = 0)) ∧
    (falsyInt row.voice_speaker_boost →
      (row_to_stimulus row).voice.speaker_boost = false) ∧
    row_to_stimulus (insert_stimulus_row "STIM_001" c8Create) =
      { id := "STIM_001", status := "draft", audio_url := none
        duration_ms := none, music := defaultMusicParams
        voice := { defaultVoiceParams with voice_id := "voice-1" }
        text := defaultTextParams, mix := defaultMixParams
        prosody := defaultProsodyParams, notes := "" } := by
  refine ⟨⟨?_, ?_, ?_, ?_, ?_, ?_, ?_, ?_, ?_, ?_, ?_, ?_, ?_, ?_, ?_, ?_,
    ?_, ?_, ?_, ?_⟩, ?_, ?_⟩
  · exact fun h => orRat_falsy _ _ h
  · exact fun h => orInt_falsy _ _ h
  · exact fun h => orInt_falsy _ _ h
  · exact fun h => orStr_falsy _ _ h
  · exact fun h => orRat_falsy _ _ h
  · exact fun h => orRat_falsy _ _ h
  · exact fun h => orRat_falsy _ _ h
  · exact fun h => orRat_falsy _ _ h
  · exact fun h => orStr_falsy _ _ h
  · exact fun h => orRat_falsy _ _ h
  · exact fun h => orRat_falsy _ _ h
  · exact fun h => orRat_falsy _ _ h
  · exact fun h => orRat_falsy _ _ h
  · exact fun h => orRat_falsy _ _ h
  · exact fun h => orInt_falsy _ _ h
  · exact fun h => orInt_falsy _ _ h
  · exact fun h => orInt_falsy _ _ h
  · exact fun h => orRat_falsy _ _ h
  · exact fun h => orStr_falsy _ _ h
  · exact fun h => orRat_falsy _ _ h
  · exact fun h => pyBool_falsy _ h
  · norm_num [row_to_stimulus, insert_stimulus_row, orStr, orRat, orInt,
      pyBool, c8Create, defaultStimulusCreate, defaultMusicParams,
      defaultVoiceParams, defaultTextParams, defaultMixParams,
      defaultProsodyParams]
    intro h
    exact absurd h (by decide)

/-- A legacy row with every nullable column NULL. -/
def legacyRow : StimulusRow :=
  { id := "STIM_042", status := none, audio_filename := none
    duration_ms := none, music_track := none, music_volume_db := none
    music_speech_entry_ms := none, music_crossfade_ms := none
    voice_model := none, voice_id := none, voice_name := none
    voice_stability := none, voice_similarity_boost := none
    voice_style_exaggeration := none, voice_speaker_boost := none
    voice_speed := none, text_source := none, text_llm_model := none
    text_llm_temperature := none, text_llm_prompt := none
    text_speech_text := none, mix_reverb_mix := none
    mix_reverb_decay := none, mix_compression_ratio := none
    mix_deesser_threshold := none, mix_eq_low_cut := none
    mix_eq_high_cut := none, mix_pitch_shift := none
    mix_normalization_lufs := none, prosody_reference := none
    prosody_intensity := none, notes := none }

/-- C8 witness: the backfill of music.volume_db on an all-NULL row, obtained
from the theorem. -/
theorem c8_default_backfill_witness :
    (row_to_stimulus legacyRow).music.volume_db = -6 :=
  (c8_default_backfill legacyRow).1.1 (Or.inl rfl)

/-- C8 counterexample: an absent stored voice_speaker_boost resolves to
false, not to its documented default true. -/
theorem c8_default_backfill_counterexample :
    (row_to_stimulus legacyRow).voice.speaker_boost = false ∧
    false ≠ true := by
  exact ⟨rfl, by decide⟩

/-! ## Claim C2: missing music track handling in the generate endpoint -/

/-- C2 (amended).
When the stored stimulus passes the pre-pipeline checks, synthesis succeeds,
a music track is selected, and its file is missing, the endpoint does not
answer HTTP 400: the HTTPException raised at generate.py line 141 is caught
by the broad handler of line 192, which records status failed and returns the
soft-failure 200 payload whose error string carries the swallowed 400 and
detail. -/
theorem c2_missing_track_soft_failure (row : StimulusRow) (env : PipelineEnv)
    (htext : (row_to_stimulus row).text.speech_text ≠ "")
    (hvoice : (row_to_stimulus row).voice.voice_id ≠ "")
    (htrack : (row_to_stimulus row).music.track ≠ "")
    (htts : env.tts_result = .ok ())
    (hmissing : env.music_exists = false) :
    generate_stimulus (some row) env =
      (.ok { stimulus_id := row.id, status := "failed", audio_url := none
             duration_ms := none
             error := some (pipelineErrorMessage (.httpExc 400
               ("Music track not found: " ++
                 (row_to_stimulus row).music.track))) },
       some (update_stimulus_status
         (update_stimulus_status row "generating" none none)
         "failed" none none)) := by
  simp [generate_stimulus, run_pipeline, htext, hvoice, htrack, htts,
    hmissing]

/-- The stimulus of the concrete missing-track run. -/
def c2Create : StimulusCreate :=
  { defaultStimulusCreate with
    text := { defaultTextParams with speech_text := "Hello world." }
    voice := { defaultVoiceParams with voice_id := "voice-1" }
    music := { defaultMusicParams with track := "missing.mp3" } }

/-- The stored row of the concrete missing-track run. -/
def c2Row : StimulusRow := insert_stimulus_row "STIM_002" c2Create

/-- An environment where synthesis succeeds but the selected track file does
not exist under the bundled tracks directory. -/
def c2Env : PipelineEnv :=
  { tts_result := .ok (), music_exists := false
    mix_audio_result := .ok 5000, mix_voice_only_result := .ok 5000 }

/-- C2 witness: the theorem applied to the concrete run. -/
theorem c2_missing_track_witness :
    generate_stimulus (some c2Row) c2Env =
      (.ok { stimulus_id := c2Row.id, status := "failed", audio_url := none
             duration_ms := none
             error := some (pipelineErrorMessage (.httpExc 400
               ("Music track not found: " ++
                 (row_to_stimulus c2Row).music.track))) },
       some (update_stimulus_status
         (update_stimulus_status c2Row "generating" none none)
         "failed" none none)) :=
  c2_missing_track_soft_failure c2Row c2Env (by decide) (by decide)
    (by decide) rfl rfl

/-- C2 counterexample: the concrete run answers with the 200 soft-failure
payload (whose error string contains the swallowed 400), not with an HTTP 400
response as the claim states. -/
theorem c2_missing_track_counterexample :
    (generate_stimulus (some c2Row) c2Env).1 =
      .ok { stimulus_id := "STIM_002", status := "failed", audio_url := none
            duration_ms := none
            error := some "400: Music track not found: missing.mp3" } ∧
    (generate_stimulus (some c2Row) c2Env).1 ≠
      .error 400 "Music track not found: missing.mp3" := by
  constructor
  · rfl
  · decide

/-! ## Claim C1: the status/audio invariant over the row lifecycle -/

theorem generate_output_filename_ne_empty (stimulus_id : String) :
    generate_output_filename stimulus_id ≠ "" := by
  intro h
  have hlen := congrArg String.length h
  rw [generate_output_filename, String.length_append] at hlen
  rw [show (".mp3" : String).length = 4 from rfl,
    show ("" : String).length = 0 from rfl] at hlen
  omega

theorem run_pipeline_ok_filename (stim : StimulusResponse)
    (stimulus_id : String) (env : PipelineEnv) (pr : String × Int)
    (h : run_pipeline stim stimulus_id env = .ok pr) :
    pr.1 = generate_output_filename stimulus_id := by
  unfold run_pipeline at h
  cases htts : env.tts_result with
  | error m => rw [htts] at h; exact absurd h (by simp)
  | ok u =>
    rw [htts] at h
    by_cases htr : stim.music.track ≠ ""
    · rw [if_pos htr] at h
      by_cases hex : env.music_exists
      · simp only [hex, not_true_eq_false, if_neg] at h
        cases hmix : env.mix_audio_result with
        | ok d => rw [hmix] at h; injection h with h; rw [← h]
        | error m => rw [hmix] at h; exact absurd h (by simp)
      · simp only [hex, not_false_eq_true, if_pos] at h
        exact absurd h (by simp)
    · rw [if_neg htr] at h
      cases hmix : env.mix_voice_only_result with
      | ok d => rw [hmix] at h; injection h with h; rw [← h]
      | error m => rw [hmix] at h; exact absurd h (by simp)

theorem generate_stimulus_some (row : StimulusRow) (env : PipelineEnv) :
    generate_stimulus (some row) env =
      (if (row_to_stimulus row).text.speech_text = "" then
        (.error 400 "Stimulus has no speech text", some row)
      else if (row_to_stimulus row).voice.voice_id = "" then
        (.error 400 "Stimulus has no voice selected", some row)
      else
        match run_pipeline (row_to_stimulus row) row.id env with
        | .ok (fname, duration) =>
          (.ok { stimulus_id := row.id, status := "generated",
                 audio_url := some ("/outputs/" ++ fname),
                 duration_ms := some duration, error := none },
           some (update_stimulus_status
             (update_stimulus_status row "generating" none none)
             "generated" (some fname) (some duration)))
        | .error e =>
          (.ok { stimulus_id := row.id, status := "failed",
                 audio_url := none, duration_ms := none,
                 error := some (pipelineErrorMessage e) },
           some (update_stimulus_status
             (update_stimulus_status row "generating" none none)
             "failed" none none))) := rfl

/-- The three shapes a stored row can take after one generate run: untouched
(an early 404/400 outside the try block), generated with a non-empty output
filename and a duration, or failed with all other columns untouched. -/
theorem generate_stimulus_row_cases (row row2 : StimulusRow)
    (env : PipelineEnv)
    (h : (generate_stimulus (some row) env).2 = some row2) :
    row2 = row ∨
    (∃ fname dur, fname ≠ "" ∧
      row2 = { row with
        status := some "generated", audio_filename := some fname,
        duration_ms := some dur }) ∨
    row2 = { row with status := some "failed" } := by
  rw [generate_stimulus_some] at h
  by_cases h1 : (row_to_stimulus row).text.speech_text = ""
  · rw [if_pos h1] at h
    injection h with h
    exact Or.inl h.symm
  · rw [if_neg h1] at h
    by_cases h2 : (row_to_stimulus row).voice.voice_id = ""
    · rw [if_pos h2] at h
      injection h with h
      exact Or.inl h.symm
    · rw [if_neg h2] at h
      cases hp : run_pipeline (row_to_stimulus row) row.id env with
      | ok pr =>
        obtain ⟨fname, dur⟩ := pr
        rw [hp] at h
        injection h with h
        refine Or.inr (Or.inl ⟨fname, dur, ?_, ?_⟩)
        · have hfn2 : fname = generate_output_filename row.id :=
            run_pipeline_ok_filename _ _ _ _ hp
          rw [hfn2]
          exact generate_output_filename_ne_empty row.id
        · rw [← h]
          have hfn : fname = generate_output_filename row.id :=
            run_pipeline_ok_filename _ _ _ _ hp
          have htruthy : truthyStr (some fname) = true := by
            simp [truthyStr, hfn]
            exact generate_output_filename_ne_empty row.id
          simp [update_stimulus_status, truthyStr]
          simp [truthyStr] at htruthy
          simp [htruthy]
      | error e =>
        rw [hp] at h
        injection h with h
        refine Or.inr (Or.inr ?_)
        rw [← h]
        simp [update_stimulus_status, truthyStr]

/-- C1 (amended).
Over every reachable state of a stored stimulus row (creation, full-field
edits, and generate runs under arbitrary environments), a record read back
with status generated always carries a non-null audio_url and duration_ms,
and a record with status draft carries no audio_url.  The draft-or-failed
half of the original claim is not preserved: a failed run records only the
status, so a previously generated audio_filename survives (see the
counterexample). -/
theorem c1_status_invariant (row : StimulusRow) (h : ReachableRow row) :
    amendedStatusInvariant row := by
  induction h with
  | created stimulus_id s =>
    exact ⟨fun hgen =>
      absurd hgen (show ¬ (("draft" : String) = "generated") by decide),
      fun _ => rfl⟩
  | step rowA rowB hreach hstep ih =>
    cases hstep with
    | edit s => exact ih
    | generate _ env heqgen =>
      rcases generate_stimulus_row_cases _ _ env heqgen with
        h0 | ⟨fname, dur, hfn, h0⟩ | h0
      · rw [h0]; exact ih
      · rw [h0]
        refine ⟨fun _ => ⟨?_, ?_⟩, fun hdraft =>
          absurd hdraft
            (show ¬ (("generated" : String) = "draft") by decide)⟩
        · show (match some fname with
            | none => none
            | some f => if f = "" then none
                else some ("/outputs/" ++ f)) ≠ none
          simp [hfn]
        · show (some dur : Option Int) ≠ none
          simp
      · rw [h0]
        exact ⟨fun hgen =>
          absurd hgen (show ¬ (("failed" : String) = "generated") by decide),
          fun hdraft =>
          absurd hdraft (show ¬ (("failed" : String) = "draft") by decide)⟩

/-- The stimulus of the concrete failed-after-success trace. -/
def c1Create : StimulusCreate :=
  { defaultStimulusCreate with
    text := { defaultTextParams with speech_text := "Hello world." }
    voice := { defaultVoiceParams with voice_id := "voice-1" } }

/-- An environment where the whole voice-only pipeline succeeds. -/
def c1EnvOk : PipelineEnv :=
  { tts_result := .ok (), music_exists := true
    mix_audio_result := .ok 5000, mix_voice_only_result := .ok 5000 }

/-- An environment where speech synthesis raises. -/
def c1EnvFail : PipelineEnv :=
  { tts_result := .error "ElevenLabs HTTP 500", music_exists := true
    mix_audio_result := .ok 5000, mix_voice_only_result := .ok 5000 }

/-- The freshly created row of the trace. -/
def c1Row0 : StimulusRow := insert_stimulus_row "STIM_001" c1Create

/-- The row after the first (successful) generate run. -/
def c1RowGenerated : StimulusRow :=
  { c1Row0 with
    status := some "generated", audio_filename := some "STIM_001.mp3",
    duration_ms := some 5000 }

/-- The row after the second (failed) generate run: the status write keeps
the previously recorded audio_filename and duration_ms. -/
def c1RowFailed : StimulusRow := { c1RowGenerated with status := some "failed" }

/-- C1 witness: the amended invariant holds of a freshly created row,
obtained from the theorem. -/
theorem c1_status_invariant_witness :
    amendedStatusInvariant (insert_stimulus_row "STIM_001" c1Create) :=
  c1_status_invariant _ (ReachableRow.created "STIM_001" c1Create)

/-- C1 counterexample: create, generate successfully, then run a generation
that fails: the reachable final row has status failed while its audio_url is
still the previously generated file, refuting the draft-or-failed half of
the claimed invariant. -/
theorem c1_status_invariant_counterexample :
    ReachableRow c1RowFailed ∧ ¬ claimedStatusInvariant c1RowFailed := by
  constructor
  · refine ReachableRow.step c1RowGenerated c1RowFailed
      (ReachableRow.step c1Row0 c1RowGenerated
        (ReachableRow.created "STIM_001" c1Create)
        (RowStep.generate c1Row0 c1RowGenerated c1EnvOk ?_))
      (RowStep.generate c1RowGenerated c1RowFailed c1EnvFail ?_)
    · rfl
    · rfl
  · intro hclaim
    have hnone := hclaim.2 (Or.inr rfl)
    exact absurd hnone (by decide)

end StimulusGen

